import Mathlib

/-!
Verification of the IES_labs road-monitoring pipeline.

Shallow embedding of three Python modules:
- `src/edge/app/usecases/data_processing.py` (namespace `Edge`): the road-state
  classifier and the per-record processing step.
- `src/agent/src/file_datasource.py` (namespace `Agent`): the cyclic CSV file
  datasource with wraparound, lifecycle errors and parse errors.
- `src/store/main.py` (namespace `Store`): the CRUD endpoints over the
  `processed_agent_data` table and the WebSocket subscription registry.

CSV fields and float-valued columns are modelled with `Int` / `ℚ`; timestamps
are modelled as abstract `Nat` instants (no arithmetic is ever performed on
them by the code under verification, they are only copied).
-/

set_option autoImplicit false

namespace Edge

/-- Modelled from the spec: the edge entity module `app.entities.agent_data`
is not part of the sources; §3 of the spec describes `AccelerometerSample`
as "integer triple (x, y, z), raw axis readings". -/
structure AccelerometerData where
  x : Int
  y : Int
  z : Int
deriving DecidableEq, Repr

/-- Modelled from the spec: float pair; §3 "GpsSample: float pair
(longitude, latitude)". The store's pydantic model (src/store/main.py:76-78)
names the fields `latitude`, `longitude`; floats are modelled as `ℚ`. -/
structure GpsData where
  latitude : ℚ
  longitude : ℚ
deriving DecidableEq, Repr

/-- Modelled from the spec: the aggregated reading consumed by the edge
processing step, shaped as the store's `AgentData` pydantic model
(src/store/main.py:81-85): user_id, accelerometer, gps, timestamp. -/
structure AgentData where
  user_id : Int
  accelerometer : AccelerometerData
  gps : GpsData
  timestamp : Nat
deriving DecidableEq, Repr

/-- Modelled from the spec: the edge `ProcessedAgentData` entity, shaped as
the store's pydantic model (src/store/main.py:100-102): a road-state label
plus the untouched agent data; it has no `id` field (ids exist only on
`ProcessedAgentDataWithId`, assigned by the store). -/
structure ProcessedAgentData where
  road_state : String
  agent_data : AgentData
deriving DecidableEq, Repr

/-- Embedding of `classify_road_state`
(src/edge/app/usecases/data_processing.py:5-13):
z < 10000 → "bumpy"; z > 16600 → "hilly"; otherwise → "normal". -/
def classify_road_state (accelerometer_data : AccelerometerData) : String :=
  let z_axis_value := accelerometer_data.z
  if z_axis_value < 10000 then "bumpy"
  else if z_axis_value > 16600 then "hilly"
  else "normal"

/-- Embedding of `process_agent_data`
(src/edge/app/usecases/data_processing.py:16-28): classify the road state
from the accelerometer sample and wrap the untouched agent data. -/
def process_agent_data (agent_data : AgentData) : ProcessedAgentData :=
  let road_state := classify_road_state agent_data.accelerometer
  ProcessedAgentData.mk road_state agent_data

end Edge

namespace Agent

/-- A CSV field as the datasource sees it. Python's `int(s)` succeeds exactly
on integer-literal fields and `float(s)` on numeric fields (an integer
literal is also a valid float literal); `bad` stands for any field on which
both fail. Floats are modelled as `ℚ`. -/
inductive Field where
  | intF (n : Int)
  | floatF (q : ℚ)
  | bad
deriving DecidableEq, Repr

/-- Python `int(field)`: succeeds only on an integer-literal field. -/
def pyInt : Field → Option Int
  | Field.intF n => some n
  | Field.floatF _ => none
  | Field.bad => none

/-- Python `float(field)`: succeeds on any numeric field. -/
def pyFloat : Field → Option ℚ
  | Field.intF n => some (n : ℚ)
  | Field.floatF q => some q
  | Field.bad => none

/-- One CSV row: a list of fields. -/
abbrev Row := List Field

/-- Embedding of `domain.accelerometer.Accelerometer`. -/
structure Accelerometer where
  x : Int
  y : Int
  z : Int
deriving DecidableEq, Repr

/-- Embedding of `domain.gps.Gps` (constructor order: longitude, latitude). -/
structure Gps where
  longitude : ℚ
  latitude : ℚ
deriving DecidableEq, Repr

/-- Embedding of `domain.parking.Parking`: empty-space count plus a Gps. -/
structure Parking where
  empty_count : Int
  gps : Gps
deriving DecidableEq, Repr

/-- Embedding of `domain.aggregated_data.AggregatedData` as built by
`FileDatasource.read` (src/agent/src/file_datasource.py:49-55). -/
structure AggregatedData where
  accelerometer : Accelerometer
  gps : Gps
  parking : Parking
  timestamp : Nat
  user_id : Int
deriving DecidableEq, Repr

/-- The state of one of the datasource's file attributes. `noFile` is the
initial `None` set by `__init__`; `opened lines pos` is an open file whose
line 0 is the header and whose read position is `pos` (lines, not bytes);
`closedFile` is a file object on which `close()` has been called. -/
inductive Handle where
  | noFile
  | opened (lines : List Row) (pos : Nat)
  | closedFile
deriving DecidableEq, Repr

/-- The errors a read can raise, named after the Python exceptions.
`notOpenNone` is the `TypeError` from `csv.reader(None)` when the file was
never opened; `notOpenClosed` is the `ValueError` ("I/O operation on closed
file") from iterating a closed file — both are the spec's `NotOpen`
lifecycle errors. `malformed` is the `ValueError` from `int()`/`float()` or
tuple unpacking on a bad row (the spec's `MalformedRecord`); `endOfData` is
a `StopIteration` escaping the handler (file with no data rows). -/
inductive ReadError where
  | notOpenNone
  | notOpenClosed
  | malformed
  | endOfData
deriving DecidableEq, Repr

/-- Embedding of `x, y, z = map(int, row)`: exactly three fields, each an
int literal. -/
def parseAccRow (row : Row) : Option Accelerometer :=
  match row with
  | [a, b, c] =>
    match pyInt a, pyInt b, pyInt c with
    | some x, some y, some z => some (Accelerometer.mk x y z)
    | _, _, _ => none
  | _ => none

/-- Embedding of `longitude, latitude = map(float, row)`: exactly two
numeric fields. -/
def parseGpsRow (row : Row) : Option Gps :=
  match row with
  | [a, b] =>
    match pyFloat a, pyFloat b with
    | some lon, some lat => some (Gps.mk lon lat)
    | _, _ => none
  | _ => none

/-- Embedding of `empty_count, longitude, latitude = map(float, row)` then
`Parking(int(empty_count), Gps(longitude, latitude))`; Python `int(float)`
truncates toward zero, modelled by t-division of numerator by denominator. -/
def parseParkingRow (row : Row) : Option Parking :=
  match row with
  | [a, b, c] =>
    match pyFloat a, pyFloat b, pyFloat c with
    | some e, some lon, some lat =>
      some (Parking.mk (e.num.tdiv (e.den : Int)) (Gps.mk lon lat))
    | _, _, _ => none
  | _ => none

/-- The cursor behaviour shared by the three `_read_*_data` methods
(src/agent/src/file_datasource.py:57-91): a fresh `csv.reader` is made over
the file and one row is pulled, advancing the file by one line; on
`StopIteration` (cursor at end) the file is rewound with `seek(0)`, the
header is re-skipped with `next(file)`, and the first data row is pulled.
Returns the raw row and the file position after the call; `none` when a
`StopIteration` escapes (no data row exists), paired with where the cursor
ends up in that case. -/
def readRow (lines : List Row) (pos : Nat) : Option Row × Nat :=
  if h : pos < lines.length then
    (some (lines.get ⟨pos, h⟩), pos + 1)
  else
    match lines[1]? with
    | some r => (some r, 2)
    | none => (none, min 1 lines.length)

/-- Embedding of `FileDatasource._read_accelerometer_data`
(src/agent/src/file_datasource.py:57-67). The row is consumed from the file
before `map(int, row)` runs, so the position advances even when parsing
fails and the exception propagates. Returns the outcome together with the
handle state after the call. -/
def _read_accelerometer_data (h : Handle) :
    Except ReadError Accelerometer × Handle :=
  match h with
  | Handle.noFile => (Except.error ReadError.notOpenNone, Handle.noFile)
  | Handle.closedFile => (Except.error ReadError.notOpenClosed, Handle.closedFile)
  | Handle.opened lines pos =>
    match readRow lines pos with
    | (some row, pos') =>
      match parseAccRow row with
      | some a => (Except.ok a, Handle.opened lines pos')
      | none => (Except.error ReadError.malformed, Handle.opened lines pos')
    | (none, pos') => (Except.error ReadError.endOfData, Handle.opened lines pos')

/-- Embedding of `FileDatasource._read_gps_data`
(src/agent/src/file_datasource.py:69-79); same cursor logic, gps parsing. -/
def _read_gps_data (h : Handle) : Except ReadError Gps × Handle :=
  match h with
  | Handle.noFile => (Except.error ReadError.notOpenNone, Handle.noFile)
  | Handle.closedFile => (Except.error ReadError.notOpenClosed, Handle.closedFile)
  | Handle.opened lines pos =>
    match readRow lines pos with
    | (some row, pos') =>
      match parseGpsRow row with
      | some g => (Except.ok g, Handle.opened lines pos')
      | none => (Except.error ReadError.malformed, Handle.opened lines pos')
    | (none, pos') => (Except.error ReadError.endOfData, Handle.opened lines pos')

/-- Embedding of `FileDatasource._read_parking_data`
(src/agent/src/file_datasource.py:81-91); same cursor logic, parking
parsing. -/
def _read_parking_data (h : Handle) : Except ReadError Parking × Handle :=
  match h with
  | Handle.noFile => (Except.error ReadError.notOpenNone, Handle.noFile)
  | Handle.closedFile => (Except.error ReadError.notOpenClosed, Handle.closedFile)
  | Handle.opened lines pos =>
    match readRow lines pos with
    | (some row, pos') =>
      match parseParkingRow row with
      | some p => (Except.ok p, Handle.opened lines pos')
      | none => (Except.error ReadError.malformed, Handle.opened lines pos')
    | (none, pos') => (Except.error ReadError.endOfData, Handle.opened lines pos')

/-- The three file attributes of a `FileDatasource`
(src/agent/src/file_datasource.py:11-23). -/
structure FileDatasource where
  accelerometer_file : Handle
  gps_file : Handle
  parking_file : Handle
deriving DecidableEq, Repr

/-- The state `__init__` leaves: all three file attributes are `None`. -/
def FileDatasource.init : FileDatasource :=
  FileDatasource.mk Handle.noFile Handle.noFile Handle.noFile

/-- Embedding of `FileDatasource.startReading`
(src/agent/src/file_datasource.py:25-32): each file is opened and its
header line is skipped with `next(file)`, leaving the position at 1.
(`next` on an empty file would raise `StopIteration`; the hypothesis of any
theorem using this keeps the files nonempty.) -/
def startReading (accLines gpsLines parkLines : List Row) : FileDatasource :=
  FileDatasource.mk (Handle.opened accLines 1) (Handle.opened gpsLines 1)
    (Handle.opened parkLines 1)

/-- Close one file attribute as `stopReading` does: `None` stays `None`
(the `if self.x_file:` guard), anything else becomes a closed file. -/
def closeHandle : Handle → Handle
  | Handle.noFile => Handle.noFile
  | Handle.opened _ _ => Handle.closedFile
  | Handle.closedFile => Handle.closedFile

/-- Embedding of `FileDatasource.stopReading`
(src/agent/src/file_datasource.py:34-41). -/
def stopReading (ds : FileDatasource) : FileDatasource :=
  FileDatasource.mk (closeHandle ds.accelerometer_file)
    (closeHandle ds.gps_file) (closeHandle ds.parking_file)

/-- Embedding of `FileDatasource.read` (src/agent/src/file_datasource.py:43-55):
the accelerometer, gps and parking streams are read in that order; an
exception in one read propagates, leaving the later streams untouched.
`now` stands for `datetime.now()` and `userId` for `config.USER_ID`. -/
def FileDatasource.read (ds : FileDatasource) (now : Nat) (userId : Int) :
    Except ReadError AggregatedData × FileDatasource :=
  match _read_accelerometer_data ds.accelerometer_file with
  | (Except.error e, a') =>
    (Except.error e, { ds with accelerometer_file := a' })
  | (Except.ok acc, a') =>
    match _read_gps_data ds.gps_file with
    | (Except.error e, g') =>
      (Except.error e, { ds with accelerometer_file := a', gps_file := g' })
    | (Except.ok gps, g') =>
      match _read_parking_data ds.parking_file with
      | (Except.error e, p') =>
        (Except.error e,
          { accelerometer_file := a', gps_file := g', parking_file := p' })
      | (Except.ok park, p') =>
        (Except.ok (AggregatedData.mk acc gps park now userId),
          { accelerometer_file := a', gps_file := g', parking_file := p' })

/-- The result of the (n+1)-th call to `_read_accelerometer_data` starting
from handle `h`, the driver calling again after each read (successful or
not), as the agent's loop does. -/
def readAfterAcc (h : Handle) : Nat → Except ReadError Accelerometer × Handle
  | 0 => _read_accelerometer_data h
  | n + 1 => readAfterAcc (_read_accelerometer_data h).2 n

end Agent

namespace Store

/-- Embedding of the pydantic `AccelerometerData` (src/store/main.py:70-73);
the store declares the axes as floats, modelled as `ℚ`. -/
structure AccelerometerData where
  x : ℚ
  y : ℚ
  z : ℚ
deriving DecidableEq, Repr

/-- Embedding of the pydantic `GpsData` (src/store/main.py:76-78). -/
structure GpsData where
  latitude : ℚ
  longitude : ℚ
deriving DecidableEq, Repr

/-- Embedding of the pydantic `AgentData` (src/store/main.py:81-85). -/
structure AgentData where
  user_id : Int
  accelerometer : AccelerometerData
  gps : GpsData
  timestamp : Nat
deriving DecidableEq, Repr

/-- Embedding of the pydantic `ProcessedAgentData` (src/store/main.py:100-102). -/
structure ProcessedAgentData where
  road_state : String
  agent_data : AgentData
deriving DecidableEq, Repr

/-- Embedding of the pydantic `ProcessedAgentDataWithId` (src/store/main.py:105-106). -/
structure ProcessedAgentDataWithId where
  id : Nat
  road_state : String
  agent_data : AgentData
deriving DecidableEq, Repr

/-- Embedding of the SQLAlchemy row `ProcessedAgentDataInDB`
(src/store/main.py:52-63): the mapped columns are flat — id, road_state,
user_id, x, y, z, latitude, longitude, timestamp. -/
structure ProcessedAgentDataInDB where
  id : Nat
  road_state : String
  user_id : Int
  x : ℚ
  y : ℚ
  z : ℚ
  latitude : ℚ
  longitude : ℚ
  timestamp : Nat
deriving DecidableEq, Repr

/-- The `processed_agent_data` table together with the autoincrement
sequence backing the `id` primary key; a Postgres sequence only moves
forward, so identifiers are never reused after deletion. -/
structure DB where
  nextId : Nat
  rows : List ProcessedAgentDataInDB
deriving DecidableEq, Repr

/-- A database state is well formed when every stored id was produced by
the sequence, i.e. lies strictly below its next value. -/
def DB.WF (db : DB) : Prop :=
  ∀ r ∈ db.rows, r.id < db.nextId

instance (db : DB) : Decidable db.WF := by
  unfold DB.WF
  exact List.decidableBAll (fun r => r.id < db.nextId) db.rows

/-- The `HTTPException(status_code=404, detail="Item not found")` raised by
the CRUD endpoints when no row has the requested id. -/
inductive StoreError where
  | notFound
deriving DecidableEq, Repr

/-- Embedding of `db_model_to_response_model` (src/store/main.py:135-145):
re-nest the flat columns into the response shape. -/
def db_model_to_response_model (db_model : ProcessedAgentDataInDB) :
    ProcessedAgentDataWithId :=
  ProcessedAgentDataWithId.mk db_model.id db_model.road_state
    (AgentData.mk db_model.user_id
      (AccelerometerData.mk db_model.x db_model.y db_model.z)
      (GpsData.mk db_model.latitude db_model.longitude)
      db_model.timestamp)

/-- The row built for one batch item by `create_processed_agent_data`
(src/store/main.py:156-168), with the id the database sequence assigns on
flush. -/
def db_object_of (id : Nat) (item : ProcessedAgentData) : ProcessedAgentDataInDB :=
  ProcessedAgentDataInDB.mk id item.road_state item.agent_data.user_id
    item.agent_data.accelerometer.x item.agent_data.accelerometer.y
    item.agent_data.accelerometer.z item.agent_data.gps.latitude
    item.agent_data.gps.longitude item.agent_data.timestamp

/-- Consecutive autoincrement ids, assigned to the batch in input order at
flush time. -/
def assignIds (start : Nat) : List ProcessedAgentData → List ProcessedAgentDataInDB
  | [] => []
  | item :: rest => db_object_of start item :: assignIds (start + 1) rest

/-- The `DetachedInstanceError` SQLAlchemy raises on attribute access of an
expired instance that is no longer bound to a session. -/
inductive OrmError where
  | detachedInstanceError
deriving DecidableEq, Repr

/-- Embedding of `create_processed_agent_data` (src/store/main.py:154-174):
one row per item is built and `add_all` + `commit` persists them in one
transaction, the sequence handing out consecutive ids in input order.
The response, however, is built OUTSIDE the `with SessionLocal()` block:
`commit()` (with the sessionmaker default `expire_on_commit=True`) expires
every attribute of the just-inserted instances and the block exit closes
the session, detaching them — so the first attribute access
(`db_model.id` inside `db_model_to_response_model`) raises
`DetachedInstanceError` for any nonempty batch. Only the empty batch maps
an empty list (no attribute is ever read) and returns `[]`. -/
def create_processed_agent_data (db : DB) (data : List ProcessedAgentData) :
    DB × Except OrmError (List ProcessedAgentDataWithId) :=
  let db_objects := assignIds db.nextId data
  let committed := DB.mk (db.nextId + data.length) (db.rows ++ db_objects)
  match db_objects with
  | [] => (committed, Except.ok [])
  | _ :: _ => (committed, Except.error OrmError.detachedInstanceError)

/-- Embedding of `read_processed_agent_data` (src/store/main.py:177-184):
`filter(id == requested).first()`, 404 when absent. -/
def read_processed_agent_data (db : DB) (processed_agent_data_id : Nat) :
    Except StoreError ProcessedAgentDataWithId :=
  match db.rows.find? (fun r => r.id == processed_agent_data_id) with
  | none => Except.error StoreError.notFound
  | some r => Except.ok (db_model_to_response_model r)

/-- Embedding of `update_processed_agent_data` (src/store/main.py:194-208).
The row with the requested id is fetched (404 when absent). Then
`for key, value in data.dict().items(): setattr(db_data, key, value)` runs
over the payload's keys, which are `road_state` and `agent_data`:
`road_state` is a mapped column and is overwritten; `agent_data` is not a
column of `ProcessedAgentDataInDB` (its columns are the flat user_id, x, y,
z, latitude, longitude, timestamp), so that `setattr` only creates an
unmapped instance attribute and none of the nested payload reaches the
row's columns. The commit therefore persists only the new road_state, and
the response is mapped from the otherwise unchanged row. -/
def update_processed_agent_data (db : DB) (processed_agent_data_id : Nat)
    (data : ProcessedAgentData) :
    Except StoreError (DB × ProcessedAgentDataWithId) :=
  match db.rows.find? (fun r => r.id == processed_agent_data_id) with
  | none => Except.error StoreError.notFound
  | some db_data =>
    let updated := { db_data with road_state := data.road_state }
    Except.ok
      (DB.mk db.nextId
        (db.rows.map (fun r => if r.id == processed_agent_data_id then updated else r)),
        db_model_to_response_model updated)

/-- A connected WebSocket as the registry sees it: an identity plus whether
its `send_json` raises when a delivery is attempted. -/
structure WebSocketConn where
  wid : Nat
  sendFails : Bool
deriving DecidableEq, Repr

/-- The module-level `subscriptions: Dict[int, Set[WebSocket]]`
(src/store/main.py:110), modelled as an association list; each per-user
list is that user's socket set in its (otherwise unspecified) iteration
order. -/
abbrev Subscriptions := List (Int × List WebSocketConn)

/-- Python dict access on `subscriptions`: the socket set of a user, when
the key is present (`user_id in subscriptions` is `(lookup subs user_id).isSome`). -/
def lookup : Subscriptions → Int → Option (List WebSocketConn)
  | [], _ => none
  | p :: rest, user_id => if p.1 = user_id then some p.2 else lookup rest user_id

/-- The error a `send_json` failure raises out of the publish loop. -/
inductive DeliveryError where
  | deliveryFailure
deriving DecidableEq, Repr

/-- The `KeyError` raised by `subscriptions[user_id]` on a missing key and
by `set.remove` on a missing element. -/
inductive KeyError where
  | keyError
deriving DecidableEq, Repr

/-- The delivery loop of `send_data_to_subscribers` (src/store/main.py:130-131):
each socket's `send_json` is awaited in turn with no exception handling, so
the first failing send aborts the loop and its exception propagates.
Returns the (socket id, record) deliveries that happened, in iteration
order, and the propagated exception if any. -/
def deliverAll {D : Type} (data : D) :
    List WebSocketConn → List (Nat × D) × Option DeliveryError
  | [] => ([], none)
  | ws :: rest =>
    if ws.sendFails then ([], some DeliveryError.deliveryFailure)
    else
      let r := deliverAll data rest
      ((ws.wid, data) :: r.1, r.2)

/-- Embedding of `send_data_to_subscribers` (src/store/main.py:128-131):
a user with no entry is skipped entirely; otherwise the socket set is
iterated and sent to, with no per-socket error isolation. -/
def send_data_to_subscribers {D : Type} (subs : Subscriptions) (user_id : Int)
    (data : D) : List (Nat × D) × Option DeliveryError :=
  match lookup subs user_id with
  | none => ([], none)
  | some sockets => deliverAll data sockets

/-- The subscribe half of `websocket_endpoint` (src/store/main.py:115-119):
make sure the user has an entry, then `set.add` the socket (a no-op when it
is already in the set). -/
def subscribe (subs : Subscriptions) (user_id : Int) (ws : WebSocketConn) :
    Subscriptions :=
  match lookup subs user_id with
  | none => subs ++ [(user_id, [ws])]
  | some _ =>
    subs.map (fun p =>
      if p.1 = user_id then (p.1, if ws ∈ p.2 then p.2 else p.2 ++ [ws])
      else p)

/-- The deregistration run on disconnect by `websocket_endpoint`
(src/store/main.py:123-124): `subscriptions[user_id].remove(websocket)`.
Both the dict indexing (missing user) and `set.remove` (element not in the
set) raise `KeyError`. -/
def unsubscribe (subs : Subscriptions) (user_id : Int) (ws : WebSocketConn) :
    Except KeyError Subscriptions :=
  match lookup subs user_id with
  | none => Except.error KeyError.keyError
  | some sockets =>
    if ws ∈ sockets then
      Except.ok (subs.map (fun p => if p.1 = user_id then (p.1, p.2.erase ws) else p))
    else Except.error KeyError.keyError

/-- Whether a socket is currently registered for a user. -/
def registered (subs : Subscriptions) (user_id : Int) (ws : WebSocketConn) : Prop :=
  ws ∈ (lookup subs user_id).getD []

instance (subs : Subscriptions) (user_id : Int) (ws : WebSocketConn) :
    Decidable (registered subs user_id ws) := by
  unfold registered
  infer_instance

/-- A subscriptions map is well formed when no user key repeats and no
socket repeats inside one user's set — both automatic for a Python dict of
sets. -/
def SubsWF (subs : Subscriptions) : Prop :=
  (subs.map Prod.fst).Nodup ∧ ∀ p ∈ subs, p.2.Nodup

end Store

/-- C3: for every integer z, `classify_road_state` returns "bumpy" when
z < 10000, "hilly" when z > 16600, and "normal" otherwise; in particular
10000 and 16600 classify as "normal" and 16601 as "hilly". The function is
a pure total Lean function of the sample alone, so it cannot error and
cannot depend on prior samples. -/
theorem C3_classify_thresholds (a : Edge.AccelerometerData) :
    (a.z < 10000 → Edge.classify_road_state a = "bumpy") ∧
    (a.z > 16600 → Edge.classify_road_state a = "hilly") ∧
    (10000 ≤ a.z → a.z ≤ 16600 → Edge.classify_road_state a = "normal") ∧
    Edge.classify_road_state ⟨0, 0, 10000⟩ = "normal" ∧
    Edge.classify_road_state ⟨0, 0, 16600⟩ = "normal" ∧
    Edge.classify_road_state ⟨0, 0, 16601⟩ = "hilly" := by
  unfold Edge.classify_road_state
  refine ⟨fun h => ?_, fun h => ?_, fun h1 h2 => ?_, by decide, by decide, by decide⟩
  · simp [h]
  · have : ¬ a.z < 10000 := by omega
    simp [this, h]
  · have h3 : ¬ a.z < 10000 := by omega
    have h4 : ¬ a.z > 16600 := by omega
    simp [h3, h4]

/-- Witness for C3 at the concrete samples z = 5000 and z = 20000. -/
theorem C3_classify_thresholds_witness :
    Edge.classify_road_state ⟨0, 0, 5000⟩ = "bumpy" ∧
    Edge.classify_road_state ⟨0, 0, 20000⟩ = "hilly" ∧
    Edge.classify_road_state ⟨0, 0, 12000⟩ = "normal" :=
  ⟨(C3_classify_thresholds ⟨0, 0, 5000⟩).1 (by decide),
   (C3_classify_thresholds ⟨0, 0, 20000⟩).2.1 (by decide),
   (C3_classify_thresholds ⟨0, 0, 12000⟩).2.2.1 (by decide) (by decide)⟩

/-- C10: `classify_road_state` depends only on the z component: two samples
agreeing on z (with arbitrary x and y) classify identically. -/
theorem C10_classify_depends_only_on_z (a b : Edge.AccelerometerData)
    (h : a.z = b.z) :
    Edge.classify_road_state a = Edge.classify_road_state b := by
  unfold Edge.classify_road_state
  rw [h]

/-- Witness for C10 at two samples sharing z = 5 with different x, y. -/
theorem C10_classify_depends_only_on_z_witness :
    Edge.classify_road_state ⟨1, 2, 5⟩ = Edge.classify_road_state ⟨9, 9, 5⟩ :=
  C10_classify_depends_only_on_z ⟨1, 2, 5⟩ ⟨9, 9, 5⟩ rfl

/-- C9: `process_agent_data` returns a record whose road_state is
`classify_road_state` of the reading's accelerometer (hence of its z value)
and whose agent data — user_id, accelerometer, gps, timestamp — is the input
unchanged; the result type has no id field, so the id is left unset. On the
spec's end-to-end example (accelerometer (5000, 0, 9000), gps (30.5, 50.4),
user_id 42) the result is "bumpy" with all fields copied through. -/
theorem C9_process_copies_and_classifies (r : Edge.AgentData) :
    (Edge.process_agent_data r).road_state =
      Edge.classify_road_state r.accelerometer ∧
    (Edge.process_agent_data r).agent_data = r ∧
    Edge.process_agent_data
        ⟨42, ⟨5000, 0, 9000⟩, ⟨50.4, 30.5⟩, 17⟩ =
      ⟨"bumpy", ⟨42, ⟨5000, 0, 9000⟩, ⟨50.4, 30.5⟩, 17⟩⟩ := by
  refine ⟨rfl, rfl, ?_⟩
  unfold Edge.process_agent_data Edge.classify_road_state
  norm_num

/-- Helper: a read strictly inside the file advances the cursor by exactly
one line, whether or not the row parses. -/
theorem Agent.read_acc_step_pos (lines : List Agent.Row) (p : Nat)
    (h : p < lines.length) :
    (Agent._read_accelerometer_data (Agent.Handle.opened lines p)).2 =
      Agent.Handle.opened lines (p + 1) := by
  have hr : Agent.readRow lines p = (some (lines.get ⟨p, h⟩), p + 1) := by
    unfold Agent.readRow
    rw [dif_pos h]
  simp only [Agent._read_accelerometer_data, hr]
  cases Agent.parseAccRow (lines.get ⟨p, h⟩) <;> rfl

/-- Helper: a read at end-of-data wraps, re-skips the header, and returns
the first data record, leaving the cursor at position 2. -/
theorem Agent.read_acc_step_wrap (lines : List Agent.Row) (p : Nat)
    (r1 : Agent.Row) (a1 : Agent.Accelerometer) (hnl : ¬ p < lines.length)
    (h1 : lines[1]? = some r1) (hp : Agent.parseAccRow r1 = some a1) :
    Agent._read_accelerometer_data (Agent.Handle.opened lines p) =
      (Except.ok a1, Agent.Handle.opened lines 2) := by
  have hr : Agent.readRow lines p = (some r1, 2) := by
    unfold Agent.readRow
    rw [dif_neg hnl, h1]
  simp only [Agent._read_accelerometer_data, hr, hp]

/-- Helper: starting k positions before end-of-data (at position p ≥ 1),
the k-th subsequent read is the wrapping one and yields the first data
record with the cursor back at position 2. -/
theorem Agent.readAfterAcc_wrap_aux (lines : List Agent.Row) (r1 : Agent.Row)
    (a1 : Agent.Accelerometer) (h1 : lines[1]? = some r1)
    (hp : Agent.parseAccRow r1 = some a1) :
    ∀ k p, 1 ≤ p → p + k = lines.length →
      Agent.readAfterAcc (Agent.Handle.opened lines p) k =
        (Except.ok a1, Agent.Handle.opened lines 2) := by
  intro k
  induction k with
  | zero =>
    intro p h1p hpl
    have hnl : ¬ p < lines.length := by omega
    simp only [Agent.readAfterAcc]
    exact Agent.read_acc_step_wrap lines p r1 a1 hnl h1 hp
  | succ k ih =>
    intro p h1p hpl
    have hlt : p < lines.length := by omega
    simp only [Agent.readAfterAcc]
    rw [Agent.read_acc_step_pos lines p hlt]
    exact ih (p + 1) (by omega) (by omega)

/-- C4: for an opened stream holding N data records (here `r1 :: rest`
after the header, so N = rest.length + 1 ≥ 1), the (N+1)-th call to the
stream's read returns exactly what the 1st call returned — the first data
record — and leaves the same cursor: on end-of-data the code seeks to the
start, re-skips the header once, and reads the first data record again.
Each of the three streams runs this logic on its own handle, so they wrap
independently. -/
theorem C4_wraparound (hdr r1 : Agent.Row) (rest : List Agent.Row) (N : Nat)
    (a1 : Agent.Accelerometer) (hN : N = rest.length + 1)
    (hp : Agent.parseAccRow r1 = some a1) :
    Agent.readAfterAcc (Agent.Handle.opened (hdr :: r1 :: rest) 1) N =
      Agent.readAfterAcc (Agent.Handle.opened (hdr :: r1 :: rest) 1) 0 := by
  have h1 : (hdr :: r1 :: rest)[1]? = some r1 := by simp
  have hwrap := Agent.readAfterAcc_wrap_aux (hdr :: r1 :: rest) r1 a1 h1 hp N 1
    (by omega) (by simp; omega)
  have hlt : (1 : Nat) < (hdr :: r1 :: rest).length := by simp
  have hfirst : Agent.readAfterAcc (Agent.Handle.opened (hdr :: r1 :: rest) 1) 0 =
      (Except.ok a1, Agent.Handle.opened (hdr :: r1 :: rest) 2) := by
    have hr : Agent.readRow (hdr :: r1 :: rest) 1 = (some r1, 2) := by
      unfold Agent.readRow
      rw [dif_pos hlt]
      rfl
    simp only [Agent.readAfterAcc, Agent._read_accelerometer_data, hr, hp]
  rw [hwrap, hfirst]

/-- Witness for C4 on a stream of N = 2 data records: the 3rd read equals
the 1st. -/
theorem C4_wraparound_witness :
    Agent.readAfterAcc (Agent.Handle.opened
      [[Agent.Field.intF 0], [Agent.Field.intF 1, Agent.Field.intF 2, Agent.Field.intF 3],
        [Agent.Field.intF 4, Agent.Field.intF 5, Agent.Field.intF 6]] 1) 2 =
    Agent.readAfterAcc (Agent.Handle.opened
      [[Agent.Field.intF 0], [Agent.Field.intF 1, Agent.Field.intF 2, Agent.Field.intF 3],
        [Agent.Field.intF 4, Agent.Field.intF 5, Agent.Field.intF 6]] 1) 0 :=
  C4_wraparound [Agent.Field.intF 0]
    [Agent.Field.intF 1, Agent.Field.intF 2, Agent.Field.intF 3]
    [[Agent.Field.intF 4, Agent.Field.intF 5, Agent.Field.intF 6]] 2
    ⟨1, 2, 3⟩ rfl rfl

/-- C6: a read before `startReading` fails with the not-open error from
`csv.reader(None)` (the spec's `NotOpen`), and a read after `stopReading`
fails with one of the two not-open errors (`TypeError` on a never-opened
`None` file, `ValueError` on a closed file) — in each case with that error
specifically, never a success, a malformed-record error or end-of-data. -/
theorem C6_read_not_open (now : Nat) (userId : Int) (ds : Agent.FileDatasource) :
    (Agent.FileDatasource.init.read now userId).1 =
      Except.error Agent.ReadError.notOpenNone ∧
    ((Agent.stopReading ds).read now userId).1 =
      Except.error (match ds.accelerometer_file with
        | Agent.Handle.noFile => Agent.ReadError.notOpenNone
        | _ => Agent.ReadError.notOpenClosed) := by
  refine ⟨rfl, ?_⟩
  obtain ⟨a, g, p⟩ := ds
  cases a <;> rfl

/-- C7 counterexample: with the stream [header, bad row, (7,8,9)] opened at
position 1, the read hits the malformed row and fails, but the cursor moves
to position 2 — past the bad record — so the next read returns the record
AFTER the bad one (`(7,8,9)`), not the bad record again. This refutes the
claim that the cursor is left not advanced beyond the bad record. -/
theorem C7_counterexample :
    Agent._read_accelerometer_data
        (Agent.Handle.opened [[Agent.Field.intF 0], [Agent.Field.bad],
          [Agent.Field.intF 7, Agent.Field.intF 8, Agent.Field.intF 9]] 1) =
      (Except.error Agent.ReadError.malformed,
        Agent.Handle.opened [[Agent.Field.intF 0], [Agent.Field.bad],
          [Agent.Field.intF 7, Agent.Field.intF 8, Agent.Field.intF 9]] 2) ∧
    (Agent._read_accelerometer_data
        (Agent.Handle.opened [[Agent.Field.intF 0], [Agent.Field.bad],
          [Agent.Field.intF 7, Agent.Field.intF 8, Agent.Field.intF 9]] 2)).1 =
      Except.ok ⟨7, 8, 9⟩ := by
  constructor <;> rfl

/-- C7 amended: a read that encounters a malformed record fails with the
malformed-record error and advances the affected stream's cursor exactly one
position past the bad record (the next read encounters the following record,
not the bad one); within the same `read` call, the streams read after the
failing one are left completely untouched. -/
theorem C7_malformed_advances_cursor (lines : List Agent.Row) (p : Nat)
    (g pk : Agent.Handle) (now : Nat) (userId : Int)
    (hlt : p < lines.length)
    (hbad : Agent.parseAccRow (lines.get ⟨p, hlt⟩) = none) :
    Agent._read_accelerometer_data (Agent.Handle.opened lines p) =
      (Except.error Agent.ReadError.malformed,
        Agent.Handle.opened lines (p + 1)) ∧
    (Agent.FileDatasource.mk (Agent.Handle.opened lines p) g pk).read now userId =
      (Except.error Agent.ReadError.malformed,
        Agent.FileDatasource.mk (Agent.Handle.opened lines (p + 1)) g pk) := by
  have hr : Agent.readRow lines p = (some (lines.get ⟨p, hlt⟩), p + 1) := by
    unfold Agent.readRow
    rw [dif_pos hlt]
  have h1 : Agent._read_accelerometer_data (Agent.Handle.opened lines p) =
      (Except.error Agent.ReadError.malformed,
        Agent.Handle.opened lines (p + 1)) := by
    simp only [Agent._read_accelerometer_data, hr, hbad]
  refine ⟨h1, ?_⟩
  simp only [Agent.FileDatasource.read, h1]

/-- Witness for C7's amended theorem at the counterexample's input. -/
theorem C7_malformed_advances_cursor_witness :
    Agent._read_accelerometer_data
        (Agent.Handle.opened [[Agent.Field.intF 0], [Agent.Field.bad],
          [Agent.Field.intF 7, Agent.Field.intF 8, Agent.Field.intF 9]] 1) =
      (Except.error Agent.ReadError.malformed,
        Agent.Handle.opened [[Agent.Field.intF 0], [Agent.Field.bad],
          [Agent.Field.intF 7, Agent.Field.intF 8, Agent.Field.intF 9]] 2) ∧
    (Agent.FileDatasource.mk
        (Agent.Handle.opened [[Agent.Field.intF 0], [Agent.Field.bad],
          [Agent.Field.intF 7, Agent.Field.intF 8, Agent.Field.intF 9]] 1)
        Agent.Handle.noFile Agent.Handle.noFile).read 5 42 =
      (Except.error Agent.ReadError.malformed,
        Agent.FileDatasource.mk
          (Agent.Handle.opened [[Agent.Field.intF 0], [Agent.Field.bad],
            [Agent.Field.intF 7, Agent.Field.intF 8, Agent.Field.intF 9]] 2)
          Agent.Handle.noFile Agent.Handle.noFile) :=
  C7_malformed_advances_cursor
    [[Agent.Field.intF 0], [Agent.Field.bad],
      [Agent.Field.intF 7, Agent.Field.intF 8, Agent.Field.intF 9]] 1
    Agent.Handle.noFile Agent.Handle.noFile 5 42 (by decide) rfl

/-- C1: evaluation of the update endpoint at a concrete stored record.
The stored record id 1 has user_id 7, accelerometer (1,2,3), gps (4,5),
timestamp 6; the replacement r has road_state "hilly", user_id 8,
accelerometer (10,11,12), gps (13,14), timestamp 15. Because the setattr
loop writes the nested payload under the non-column key `agent_data`, the
update persists only road_state: the subsequent getById returns the OLD
agent data with the NEW road_state, not the values of r — refuting the
claim that all fields are replaced. -/
theorem C1_update_persists_only_road_state :
    Store.update_processed_agent_data
        (Store.DB.mk 2 [⟨1, "normal", 7, 1, 2, 3, 4, 5, 6⟩]) 1
        (Store.ProcessedAgentData.mk "hilly"
          (Store.AgentData.mk 8 ⟨10, 11, 12⟩ ⟨13, 14⟩ 15)) =
      Except.ok (Store.DB.mk 2 [⟨1, "hilly", 7, 1, 2, 3, 4, 5, 6⟩],
        Store.ProcessedAgentDataWithId.mk 1 "hilly"
          (Store.AgentData.mk 7 ⟨1, 2, 3⟩ ⟨4, 5⟩ 6)) ∧
    Store.read_processed_agent_data
        (Store.DB.mk 2 [⟨1, "hilly", 7, 1, 2, 3, 4, 5, 6⟩]) 1 =
      Except.ok (Store.ProcessedAgentDataWithId.mk 1 "hilly"
        (Store.AgentData.mk 7 ⟨1, 2, 3⟩ ⟨4, 5⟩ 6)) ∧
    Store.AgentData.mk 7 ⟨1, 2, 3⟩ ⟨4, 5⟩ 6 ≠
      Store.AgentData.mk 8 ⟨10, 11, 12⟩ ⟨13, 14⟩ 15 := by
  refine ⟨rfl, rfl, ?_⟩
  decide

/-- C2 counterexample: user 3 has two registered listeners in iteration
order [L1 (whose send raises), L2]. Publishing one record delivers it to
NOBODY — in particular not to L2 — and the delivery failure propagates to
the caller of publish, refuting both the all-listeners delivery and the
no-propagation parts of the claim. (Whatever iteration order the set
produces, the propagated exception alone already contradicts the claim.) -/
theorem C2_counterexample :
    Store.send_data_to_subscribers
        [((3 : Int), [Store.WebSocketConn.mk 1 true, Store.WebSocketConn.mk 2 false])]
        3 "record" =
      ([], some Store.DeliveryError.deliveryFailure) := rfl

/-- C2 amended: publish walks the user's listener set in iteration order
with no per-listener error handling: exactly the listeners strictly before
the first failing one receive the record, and when any listener fails the
first failure propagates to the caller; only when every send succeeds (or
the user has no entry, which is a no-op) does every registered listener
receive the record with nothing propagated. -/
theorem C2_publish_stops_at_first_failure {D : Type} (subs : Store.Subscriptions)
    (user_id : Int) (data : D) :
    Store.send_data_to_subscribers subs user_id data =
      (((Store.lookup subs user_id).getD []).takeWhile (fun ws => !ws.sendFails)
          |>.map (fun ws => (ws.wid, data)),
        if ((Store.lookup subs user_id).getD []).all (fun ws => !ws.sendFails)
          then none
          else some Store.DeliveryError.deliveryFailure) := by
  have hall : ∀ sockets : List Store.WebSocketConn,
      Store.deliverAll data sockets =
        ((sockets.takeWhile (fun ws => !ws.sendFails)).map (fun ws => (ws.wid, data)),
          if sockets.all (fun ws => !ws.sendFails) then none
          else some Store.DeliveryError.deliveryFailure) := by
    intro sockets
    induction sockets with
    | nil => rfl
    | cons ws rest ih =>
      by_cases hws : ws.sendFails <;>
        simp [Store.deliverAll, ih, List.takeWhile_cons, hws]
  unfold Store.send_data_to_subscribers
  cases h : Store.lookup subs user_id with
  | none => rfl
  | some sockets => simpa using hall sockets

/-- C5: evaluation of the create endpoint. For any nonempty batch the rows
are persisted in one commit with consecutive fresh ids in input order, but
the returned value is the `DetachedInstanceError` raised while mapping the
response outside the session — the endpoint never returns the created
records, refuting the claim's "returns K records ... populated with ...
identifier" half while its persistence half holds in the committed store. -/
theorem C5_create_batch_detached (db : Store.DB)
    (data : List Store.ProcessedAgentData) (hne : data ≠ []) :
    Store.create_processed_agent_data db data =
      (Store.DB.mk (db.nextId + data.length)
          (db.rows ++ Store.assignIds db.nextId data),
        Except.error Store.OrmError.detachedInstanceError) := by
  cases data with
  | nil => exact absurd rfl hne
  | cons item rest => rfl

/-- Witness for C5 at a concrete two-record batch on an empty store: both
rows are committed with ids 0 and 1, and the endpoint errors instead of
returning them. -/
theorem C5_create_batch_detached_witness :
    Store.create_processed_agent_data (Store.DB.mk 0 [])
        [Store.ProcessedAgentData.mk "bumpy"
            (Store.AgentData.mk 42 ⟨1, 2, 3⟩ ⟨4, 5⟩ 6),
          Store.ProcessedAgentData.mk "normal"
            (Store.AgentData.mk 43 ⟨7, 8, 9⟩ ⟨10, 11⟩ 12)] =
      (Store.DB.mk 2 [⟨0, "bumpy", 42, 1, 2, 3, 4, 5, 6⟩,
          ⟨1, "normal", 43, 7, 8, 9, 10, 11, 12⟩],
        Except.error Store.OrmError.detachedInstanceError) :=
  C5_create_batch_detached (Store.DB.mk 0 [])
    [Store.ProcessedAgentData.mk "bumpy"
        (Store.AgentData.mk 42 ⟨1, 2, 3⟩ ⟨4, 5⟩ 6),
      Store.ProcessedAgentData.mk "normal"
        (Store.AgentData.mk 43 ⟨7, 8, 9⟩ ⟨10, 11⟩ 12)]
    (by decide)

/-- Helper: removing one socket from a user's set rewrites exactly that
user's entry in the registry. -/
theorem Store.lookup_map_erase (subs : Store.Subscriptions) (user_id : Int)
    (ws : Store.WebSocketConn) :
    Store.lookup
        (subs.map (fun p => if p.1 = user_id then (p.1, p.2.erase ws) else p))
        user_id =
      (Store.lookup subs user_id).map (fun sockets => sockets.erase ws) := by
  induction subs with
  | nil => rfl
  | cons p rest ih =>
    simp only [List.map_cons, Store.lookup]
    by_cases hp : p.1 = user_id
    · simp [hp]
    · simp [hp, ih]

/-- Helper: a successful dict access returns an entry of the registry. -/
theorem Store.lookup_mem (subs : Store.Subscriptions) (user_id : Int)
    (sockets : List Store.WebSocketConn)
    (h : Store.lookup subs user_id = some sockets) :
    (user_id, sockets) ∈ subs := by
  induction subs with
  | nil => simp [Store.lookup] at h
  | cons p rest ih =>
    by_cases hp : p.1 = user_id
    · rw [Store.lookup, if_pos hp] at h
      have h2 : p.2 = sockets := by
        injection h
      rw [← hp, ← h2]
      exact List.mem_cons_self p rest
    · rw [Store.lookup, if_neg hp] at h
      exact List.mem_cons_of_mem _ (ih h)

/-- C8 counterexample: with only socket 1 registered for user 3,
unsubscribing socket 2 (not registered for that user) raises `KeyError`,
as does unsubscribing from a user with no entry at all — refuting the
claim that unsubscribing an absent handle is an error-free no-op. -/
theorem C8_counterexample :
    Store.unsubscribe [((3 : Int), [Store.WebSocketConn.mk 1 false])] 3
        (Store.WebSocketConn.mk 2 false) = Except.error Store.KeyError.keyError ∧
    Store.unsubscribe ([] : Store.Subscriptions) 3
        (Store.WebSocketConn.mk 2 false) = Except.error Store.KeyError.keyError := by
  constructor <;> rfl

/-- C8 amended: unsubscribing a handle that is not currently registered for
the user (including when the user has no entry) raises `KeyError` — the
removal is not an idempotent no-op; unsubscribing a registered handle
succeeds and leaves the handle no longer registered for that user. -/
theorem C8_unsubscribe_requires_registration (subs : Store.Subscriptions)
    (user_id : Int) (ws : Store.WebSocketConn) (hwf : Store.SubsWF subs) :
    (¬ Store.registered subs user_id ws →
      Store.unsubscribe subs user_id ws = Except.error Store.KeyError.keyError) ∧
    (Store.registered subs user_id ws →
      ∃ subs', Store.unsubscribe subs user_id ws = Except.ok subs' ∧
        ¬ Store.registered subs' user_id ws) := by
  constructor
  · intro hnr
    unfold Store.unsubscribe
    cases hl : Store.lookup subs user_id with
    | none => rfl
    | some sockets =>
      have hmem : ws ∉ sockets := by
        intro hm
        refine hnr ?_
        unfold Store.registered
        rw [hl]
        exact hm
      simp [hmem]
  · intro hr
    cases hl : Store.lookup subs user_id with
    | none =>
      exfalso
      unfold Store.registered at hr
      rw [hl] at hr
      simp at hr
    | some sockets =>
      have hmem : ws ∈ sockets := by
        unfold Store.registered at hr
        rw [hl] at hr
        exact hr
      have hnd : sockets.Nodup :=
        hwf.2 (user_id, sockets) (Store.lookup_mem subs user_id sockets hl)
      refine ⟨subs.map (fun p => if p.1 = user_id then (p.1, p.2.erase ws) else p),
        ?_, ?_⟩
      · unfold Store.unsubscribe
        rw [hl]
        simp [hmem]
      · unfold Store.registered
        rw [Store.lookup_map_erase, hl]
        simpa using hnd.not_mem_erase

/-- Witness for C8's amended theorem: socket 1 is registered for user 3, so
unsubscribing it succeeds and deregisters it. -/
theorem C8_unsubscribe_requires_registration_witness :
    ∃ subs', Store.unsubscribe [((3 : Int), [Store.WebSocketConn.mk 1 false])] 3
        (Store.WebSocketConn.mk 1 false) = Except.ok subs' ∧
      ¬ Store.registered subs' 3 (Store.WebSocketConn.mk 1 false) :=
  (C8_unsubscribe_requires_registration
    [((3 : Int), [Store.WebSocketConn.mk 1 false])] 3
    (Store.WebSocketConn.mk 1 false) (by constructor <;> decide)).2 (by decide)
